import Mathlib

/-!
Verification development for the MongoDB Atlas projects manager
(`atlas_projects_manager.py`): a shallow embedding of the API client
(`AtlasAPI`), the domain records (`ProjectData`, `ClusterData`) and the
session/navigation state machine (`AtlasProjectsApp`, `ClusterViewScreen`),
together with theorems settling the specification's claims about them.

JSON values returned by `response.json()` are modelled by the inductive
`Json`; Python dynamic typing is modelled by keeping record fields at type
`Json` and by making operations that can raise return `Except PyExn`.
-/

namespace Atlas

/-- JSON values as produced by `response.json()`. Numbers are restricted to
integers (no claim involves fractional numbers); objects are association
lists with distinct keys, in insertion order like a Python dict. -/
inductive Json where
  | null
  | bool (b : Bool)
  | num (n : Int)
  | str (s : String)
  | arr (xs : List Json)
  | obj (kvs : List (String × Json))

/-- Python exceptions that the embedded code can raise.  `exception m` is a
plain `Exception(m)` as raised by `AtlasAPI`'s error translation; the other
constructors stand for the builtin / framework exception classes that can
reach the modelled code (all of them subclasses of `Exception` in Python). -/
inductive PyExn where
  | exception (msg : String)
  | attributeError
  | typeError
  | indexError
  | rowDoesNotExist
  | noMatches
deriving DecidableEq

/-- Rendering `str(e)` of an exception.  For `Exception(m)` this is `m`
exactly; for builtin exception classes the Python runtime produces a
descriptive message which is abstracted here by the class name (no theorem
depends on the exact text of these cases). -/
def PyExn.str : PyExn → String
  | .exception m => m
  | .attributeError => "AttributeError"
  | .typeError => "TypeError"
  | .indexError => "IndexError"
  | .rowDoesNotExist => "RowDoesNotExist"
  | .noMatches => "NoMatches"

/-- Python truthiness of a JSON value (`if x:`): None, False, 0, and empty
string/list/dict are falsy, everything else truthy. -/
def Json.truthy : Json → Bool
  | .null => false
  | .bool b => b
  | .num n => n != 0
  | .str s => !s.isEmpty
  | .arr xs => !xs.isEmpty
  | .obj kvs => !kvs.isEmpty

/-- Whether a JSON value is an object (a Python dict). -/
def Json.isObj : Json → Bool
  | .obj _ => true
  | _ => false

mutual

/-- Python structural equality `==` on JSON values (used by
`project.id == project_id` in `action_cluster`). -/
def Json.beq : Json → Json → Bool
  | .null, .null => true
  | .bool a, .bool b => a == b
  | .num a, .num b => a == b
  | .str a, .str b => a == b
  | .arr a, .arr b => Json.beqList a b
  | .obj a, .obj b => Json.beqObj a b
  | _, _ => false

/-- Elementwise equality of JSON arrays. -/
def Json.beqList : List Json → List Json → Bool
  | [], [] => true
  | x :: xs, y :: ys => Json.beq x y && Json.beqList xs ys
  | _, _ => false

/-- Entrywise equality of JSON objects (key order sensitive; the program
only ever compares string-valued `id` fields, where this coincides with
Python dict equality). -/
def Json.beqObj : List (String × Json) → List (String × Json) → Bool
  | [], [] => true
  | (k1, v1) :: xs, (k2, v2) :: ys => k1 == k2 && Json.beq v1 v2 && Json.beqObj xs ys
  | _, _ => false

end

/-- Python `d.get(k, default)` on a dict: the stored value when the key is
present (even when that value is `None`), the default otherwise. -/
def dictGet (kvs : List (String × Json)) (k : String) (d : Json) : Json :=
  match kvs.find? (fun kv => kv.1 == k) with
  | some kv => kv.2
  | none => d

/-- Whether a dict has the given key. -/
def hasKey (kvs : List (String × Json)) (k : String) : Bool :=
  (kvs.find? (fun kv => kv.1 == k)).isSome

/-- Python `v.get(k, default)` on an arbitrary value: dicts answer, any
other value raises `AttributeError` (no `get` attribute). -/
def pyGet (v : Json) (k : String) (d : Json) : Except PyExn Json :=
  match v with
  | .obj kvs => .ok (dictGet kvs k d)
  | _ => .error .attributeError

/-- Python iteration `for x in v`: lists yield their elements, strings their
characters, dicts their keys; other values raise `TypeError`. -/
def pyIter : Json → Except PyExn (List Json)
  | .arr xs => .ok xs
  | .str s => .ok (s.data.map (fun c => Json.str (String.mk [c])))
  | .obj kvs => .ok (kvs.map (fun kv => Json.str kv.1))
  | _ => .error .typeError

/-- Left-to-right effectful map, as a Python `for` loop that appends to an
accumulator and propagates the first raised exception. -/
def traverseE {α β : Type} (f : α → Except PyExn β) : List α → Except PyExn (List β)
  | [] => .ok []
  | x :: xs =>
    match f x with
    | .error e => .error e
    | .ok b =>
      match traverseE f xs with
      | .error e => .error e
      | .ok bs => .ok (b :: bs)

/-- Data model for Atlas projects (`ProjectData.__init__`): each field is
`project_data.get(key, default)`. -/
structure ProjectData where
  id : Json
  name : Json
  org_id : Json
  created : Json
  cluster_count : Json
  links : Json

/-- Field extraction of `ProjectData.__init__` from a payload dict. -/
def projectOfDict (d : List (String × Json)) : ProjectData :=
  { id := dictGet d "id" (.str "")
  , name := dictGet d "name" (.str "")
  , org_id := dictGet d "orgId" (.str "")
  , created := dictGet d "created" (.str "")
  , cluster_count := dictGet d "clusterCount" (.num 0)
  , links := dictGet d "links" (.arr []) }

/-- `ProjectData(project_data)` on an arbitrary JSON element of the
`results` array: non-dict elements raise `AttributeError` at the first
`.get`. -/
def projectDataInit : Json → Except PyExn ProjectData
  | .obj d => .ok (projectOfDict d)
  | _ => .error .attributeError

/-- Data model for Atlas clusters (`ClusterData.__init__`). -/
structure ClusterData where
  id : Json
  name : Json
  connection_strings : Json
  cluster_type : Json
  mongo_db_version : Json
  state_name : Json
  created_date : Json
  provider_settings : Json
  backup_enabled : Json
  encryption_at_rest_provider : Json
  provider_name : Json
  region_name : Json
  instance_size_name : Json

/-- The non-provider fields of `ClusterData.__init__`, each a
`cluster_data.get(key, default)`; the three provider fields are passed in. -/
def mkCluster (d : List (String × Json)) (pn rn iz : Json) : ClusterData :=
  { id := dictGet d "id" (.str "")
  , name := dictGet d "name" (.str "")
  , connection_strings := dictGet d "connectionStrings" (.obj [])
  , cluster_type := dictGet d "clusterType" (.str "")
  , mongo_db_version := dictGet d "mongoDBVersion" (.str "")
  , state_name := dictGet d "stateName" (.str "")
  , created_date := dictGet d "createDate" (.str "")
  , provider_settings := dictGet d "providerSettings" (.obj [])
  , backup_enabled := dictGet d "backupEnabled" (.bool false)
  , encryption_at_rest_provider := dictGet d "encryptionAtRestProvider" (.str "")
  , provider_name := pn
  , region_name := rn
  , instance_size_name := iz }

/-- Body of `ClusterData.__init__` on a payload dict: when
`providerSettings` is truthy, the three provider fields come from
`provider_settings.get(...)` — raising `AttributeError` when the truthy
value is not a dict — and otherwise they default to "Unknown". -/
def clusterOfDict (d : List (String × Json)) : Except PyExn ClusterData :=
  let ps := dictGet d "providerSettings" (.obj [])
  if ps.truthy then
    match ps with
    | .obj pkvs =>
      .ok (mkCluster d (dictGet pkvs "providerName" (.str "Unknown"))
        (dictGet pkvs "regionName" (.str "Unknown"))
        (dictGet pkvs "instanceSizeName" (.str "Unknown")))
    | _ => .error .attributeError
  else
    .ok (mkCluster d (.str "Unknown") (.str "Unknown") (.str "Unknown"))

/-- Total form of `clusterOfDict`, agreeing with it whenever construction
does not raise (see `clusterOfDict_safe`). -/
def clusterOfDictD (d : List (String × Json)) : ClusterData :=
  match dictGet d "providerSettings" (.obj []) with
  | .obj pkvs =>
    if (Json.obj pkvs).truthy then
      mkCluster d (dictGet pkvs "providerName" (.str "Unknown"))
        (dictGet pkvs "regionName" (.str "Unknown"))
        (dictGet pkvs "instanceSizeName" (.str "Unknown"))
    else
      mkCluster d (.str "Unknown") (.str "Unknown") (.str "Unknown")
  | _ => mkCluster d (.str "Unknown") (.str "Unknown") (.str "Unknown")

/-- A payload dict is provider-safe when its `providerSettings` value is
falsy or a dict — exactly the case in which `ClusterData.__init__` cannot
raise. -/
def psSafe (d : List (String × Json)) : Bool :=
  let ps := dictGet d "providerSettings" (.obj [])
  !ps.truthy || ps.isObj

/-- `ClusterData(cluster_data)` on an arbitrary JSON element. -/
def clusterDataInit : Json → Except PyExn ClusterData
  | .obj d => clusterOfDict d
  | _ => .error .attributeError

/-- Response body: either not valid JSON (`response.json()` raises
`json.JSONDecodeError`) or a parsed JSON value. -/
inductive Body where
  | malformed
  | json (j : Json)

/-- Outcome of one HTTP round trip as seen by the client code: either a
transport-level failure (DNS, TLS, timeout — `httpx` raises a
`TransportError`, a subclass of `httpx.HTTPError`, rendering to `detail`),
or a response with a status code and a body.  `statusDetail` is the text
`httpx` renders for the `HTTPStatusError` that `raise_for_status` raises
when the status is not 2xx. -/
inductive HttpResult where
  | transportError (detail : String)
  | response (status : Nat) (statusDetail : String) (body : Body)

/-- `response.raise_for_status()` fires for every status outside 2xx. -/
def is2xx (s : Nat) : Bool := 200 ≤ s && s < 300

/-- `AtlasAPI.get_projects`: on a transport failure or a non-2xx status the
caught `httpx.HTTPError` is re-raised as `Exception("API request failed:
...")`; an invalid-JSON body is re-raised as `Exception("Invalid JSON
response from API")`; otherwise `data.get('results', [])` is iterated and
each element passed to `ProjectData` — exceptions arising there
(`AttributeError` on a non-dict `data`, `TypeError` on a non-iterable
`results`, `AttributeError` on a non-dict element) match neither `except`
arm and escape raw. -/
def get_projects (net : HttpResult) : Except PyExn (List ProjectData) :=
  match net with
  | .transportError d => .error (.exception ("API request failed: " ++ d))
  | .response status statusDetail body =>
    if is2xx status then
      match body with
      | .malformed => .error (.exception "Invalid JSON response from API")
      | .json data =>
        match data with
        | .obj kvs =>
          match pyIter (dictGet kvs "results" (.arr [])) with
          | .error e => .error e
          | .ok items => traverseE projectDataInit items
        | _ => .error .attributeError
    else
      .error (.exception ("API request failed: " ++ statusDetail))

/-- `AtlasAPI.get_clusters`: same structure as `get_projects`, building
`ClusterData` records (the `project_id` argument only selects the URL). -/
def get_clusters (project_id : Json) (net : HttpResult) : Except PyExn (List ClusterData) :=
  match net with
  | .transportError d => .error (.exception ("API request failed: " ++ d))
  | .response status statusDetail body =>
    if is2xx status then
      match body with
      | .malformed => .error (.exception "Invalid JSON response from API")
      | .json data =>
        match data with
        | .obj kvs =>
          match pyIter (dictGet kvs "results" (.arr [])) with
          | .error e => .error e
          | .ok items => traverseE clusterDataInit items
        | _ => .error .attributeError
    else
      .error (.exception ("API request failed: " ++ statusDetail))

/-- `AtlasAPI.delete_one_project`: no body is parsed; a transport failure or
non-2xx status is re-raised as `Exception("API request failed: ...")`, and
a 2xx response returns `True`. -/
def delete_one_project (net : HttpResult) : Except PyExn Unit :=
  match net with
  | .transportError d => .error (.exception ("API request failed: " ++ d))
  | .response status statusDetail _ =>
    if is2xx status then .ok ()
    else .error (.exception ("API request failed: " ++ statusDetail))

/-- Wall-clock fields of a Python `datetime` (the timezone offset, if any,
does not influence `strftime` on the stored fields). -/
structure PyDateTime where
  year : Nat
  month : Nat
  day : Nat
  hour : Nat
  minute : Nat
  second : Nat

/-- Numeric value of a decimal digit character. -/
def digitVal (c : Char) : Option Nat :=
  if c.isDigit then some (c.toNat - 48) else none

/-- Two decimal digits. -/
def twoDigit (a b : Char) : Option Nat := do
  let x ← digitVal a
  let y ← digitVal b
  pure (10 * x + y)

/-- Gregorian leap year, as validated by `datetime`. -/
def isLeap (y : Nat) : Bool := (y % 4 == 0 && y % 100 != 0) || y % 400 == 0

/-- Number of days in a month, as validated by `datetime`. -/
def daysInMonth (y m : Nat) : Nat :=
  if m == 2 then (if isLeap y then 29 else 28)
  else if m == 4 || m == 6 || m == 9 || m == 11 then 30
  else 31

/-- Parse the 19-character core `YYYY-MM-DDTHH:MM:SS` (a space is also
accepted as separator), validating ranges the way `datetime` does. -/
def parseDTCore (cs : List Char) : Option PyDateTime :=
  match cs with
  | [y1, y2, y3, y4, a1, m1, m2, a2, d1, d2, sep, h1, h2, b1, n1, n2, b2, s1, s2] =>
    if a1 == '-' && a2 == '-' && (sep == 'T' || sep == ' ') && b1 == ':' && b2 == ':' then do
      let yh ← twoDigit y1 y2
      let yl ← twoDigit y3 y4
      let m ← twoDigit m1 m2
      let d ← twoDigit d1 d2
      let h ← twoDigit h1 h2
      let n ← twoDigit n1 n2
      let s ← twoDigit s1 s2
      let y := 100 * yh + yl
      if 1 ≤ y && 1 ≤ m && m ≤ 12 && 1 ≤ d && d ≤ daysInMonth y m && h < 24 && n < 60 && s < 60 then
        some ⟨y, m, d, h, n, s⟩
      else none
    else none
  | _ => none

/-- Validity of a trailing `±HH:MM` UTC-offset suffix. -/
def validOffset (cs : List Char) : Bool :=
  match cs with
  | [sg, o1, o2, c, o3, o4] =>
    (sg == '+' || sg == '-') && c == ':' &&
      (match twoDigit o1 o2, twoDigit o3 o4 with
       | some oh, some om => oh < 24 && om < 60
       | _, _ => false)
  | _ => false

/-- Models `datetime.fromisoformat`, restricted to the shapes
`YYYY-MM-DDTHH:MM:SS` optionally followed by `±HH:MM` (the shapes the
program's `created` strings take after the `Z` replacement); any other
input is treated as unparseable (`ValueError`, i.e. `none`). -/
def fromisoformat (s : String) : Option PyDateTime :=
  let cs := s.data
  if cs.length == 19 then parseDTCore cs
  else if cs.length == 25 then
    match parseDTCore (cs.take 19) with
    | some dt => if validOffset (cs.drop 19) then some dt else none
    | none => none
  else none

/-- Two-digit zero padding (`%d`, `%H`, `%M`). -/
def pad2 (n : Nat) : String := if n < 10 then "0" ++ toString n else toString n

/-- Four-digit zero padding (`%Y`). -/
def pad4 (n : Nat) : String :=
  if n < 10 then "000" ++ toString n
  else if n < 100 then "00" ++ toString n
  else if n < 1000 then "0" ++ toString n
  else toString n

/-- C-locale month abbreviation (`%b`). -/
def monthAbbrev : Nat → String
  | 1 => "Jan" | 2 => "Feb" | 3 => "Mar" | 4 => "Apr" | 5 => "May" | 6 => "Jun"
  | 7 => "Jul" | 8 => "Aug" | 9 => "Sep" | 10 => "Oct" | 11 => "Nov" | 12 => "Dec"
  | _ => ""

/-- `dt.strftime('%d-%b-%Y %H:%M')`. -/
def strftimeDMY (dt : PyDateTime) : String :=
  pad2 dt.day ++ "-" ++ monthAbbrev dt.month ++ "-" ++ pad4 dt.year ++ " " ++
    pad2 dt.hour ++ ":" ++ pad2 dt.minute

/-- The call `project.created.replace('Z', '+00:00')`: every occurrence of
the one-character pattern `Z` replaced by `+00:00`. -/
def replaceZ (s : String) : String :=
  String.mk (s.data.foldr
    (fun c acc => if c == 'Z' then '+' :: '0' :: '0' :: ':' :: '0' :: '0' :: acc else c :: acc) [])

/-- Python `str()` of a cell value as used in f-string interpolation. For
strings it is the string itself; the rendering of container values is
produced by the Python runtime and abstracted here (no theorem depends on
those cases). -/
def pyStr : Json → String
  | .str s => s
  | .num n => toString n
  | .bool true => "True"
  | .bool false => "False"
  | .null => "None"
  | .arr _ => "[...]"
  | .obj _ => "dict"

/-- Python `x or y` with a string fallback: `x` when truthy, else `y`. -/
def orJ (a b : Json) : Json := if a.truthy then a else b

/-- The created-date cell of `update_projects_table`: "N/A" for a falsy
`created`; for a truthy string, the ISO parse formatted with
`%d-%b-%Y %H:%M`, falling back to the first 19 characters under the bare
`except`; for a truthy non-string, `.replace` raises `AttributeError`,
the bare `except` catches it, and `project.created[:19]` then slices a
list or raises `TypeError` on an unsliceable value. -/
def formatCreatedCell (created : Json) : Except PyExn Json :=
  if created.truthy then
    match created with
    | .str s =>
      match fromisoformat (replaceZ s) with
      | some dt => .ok (.str (strftimeDMY dt))
      | none => .ok (.str (s.take 19))
    | .arr xs => .ok (.arr (xs.take 19))
    | _ => .error .typeError
  else .ok (.str "N/A")

/-- One row of the projects table:
`(project.name or "Unnamed Project", project.id, created_date)`. -/
structure Row where
  name : Json
  pid : Json
  created : Json

/-- The row `update_projects_table` adds for one project. -/
def projectRow (p : ProjectData) : Except PyExn Row :=
  match formatCreatedCell p.created with
  | .error e => .error e
  | .ok c => .ok { name := orJ p.name (.str "Unnamed Project"), pid := p.id, created := c }

/-- The loop body of `update_projects_table`: rows are added one by one, so
an exception raised for some project leaves the rows added before it in
the (cleared) table. -/
def buildRows : List ProjectData → List Row × Option PyExn
  | [] => ([], none)
  | p :: ps =>
    match projectRow p with
    | .error e => ([], some e)
    | .ok r =>
      match buildRows ps with
      | (rs, e?) => (r :: rs, e?)

/-- One row of the clusters table (`update_clusters_table`): name with
"Unnamed Cluster" fallback, state and version with "Unknown" fallback,
provider fields as stored. -/
def clusterRow (c : ClusterData) : List Json :=
  [orJ c.name (.str "Unnamed Cluster"), orJ c.state_name (.str "Unknown"),
    c.provider_name, c.region_name, c.instance_size_name,
    orJ c.mongo_db_version (.str "Unknown")]

/-- The parts of `AtlasProjectsApp` the state machine mutates: the loaded
projects, the projects-table rows, and the status line with its severity
CSS class ("", "success" or "error"). -/
structure AppState where
  projects : List ProjectData
  table : List Row
  status : String
  severity : String

/-- `AtlasProjectsApp.update_status(message, status_type)`: sets the status
text and replaces the severity class. -/
def AppState.update_status (st : AppState) (msg : String) (t : String) : AppState :=
  { st with status := msg, severity := t }

/-- State owned by one `ClusterViewScreen` instance: the project it was
constructed with, its fetched clusters, its table rows and its status line
(that screen's `update_status` has no severity argument). -/
structure ClusterScreenState where
  project : ProjectData
  clusters : List ClusterData
  ctable : List (List Json)
  cstatus : String

/-- Whole-program state: the app plus every `ClusterViewScreen` object ever
created (`screens`, addressed by index) and the stack of screens pushed on
the app (`stack`, indices into `screens`, top first; `currentScreen` is
ClusterList exactly when the stack is nonempty, ProjectList otherwise). -/
structure Sys where
  app : AppState
  screens : List ClusterScreenState
  stack : List Nat

/-- Remote operations a user action causes the client to issue. -/
inductive ApiCall where
  | listProjects
  | listClusters (pid : Json)
  | deleteProject (pid : Json)

/-- Whether a call is a `listProjects` request. -/
def isListProjects : ApiCall → Bool
  | .listProjects => true
  | _ => false

/-- Result of running one user-triggered action: the new state, the
exception escaping the action boundary (if any), the API calls issued, and
the sequence of `update_status` calls made (message, severity). -/
structure ActOut where
  sys : Sys
  raised : Option PyExn
  calls : List ApiCall
  trace : List (String × String)

/-- Result of `fetch_projects` (which never raises: its `try` is closed by
`except Exception`). -/
structure FetchOut where
  app : AppState
  calls : List ApiCall
  trace : List (String × String)

/-- `AtlasProjectsApp.fetch_projects`: status "Loading projects..."; then
under `try`, a fresh client is created and `get_projects` awaited — on
success `self.projects` is replaced, the table rebuilt, and a success
status set; any `Exception` (including those escaping `get_projects` raw
and any raised while rebuilding the table) is caught and turned into
status `Error: ...` with severity "error". -/
def fetch_projects (st : AppState) (net : HttpResult) : FetchOut :=
  let st1 := st.update_status "Loading projects..." ""
  match get_projects net with
  | .error e =>
    { app := st1.update_status ("Error: " ++ e.str) "error"
    , calls := [.listProjects]
    , trace := [("Loading projects...", ""), ("Error: " ++ e.str, "error")] }
  | .ok ps =>
    let st2 := { st1 with projects := ps }
    match buildRows ps with
    | (rows, some e) =>
      { app := { st2 with table := rows }.update_status ("Error: " ++ e.str) "error"
      , calls := [.listProjects]
      , trace := [("Loading projects...", ""), ("Error: " ++ e.str, "error")] }
    | (rows, none) =>
      let n := ps.length
      let msg := "Successfully loaded " ++ toString n ++ " project" ++ (if n == 1 then "" else "s")
      { app := { st2 with table := rows }.update_status msg "success"
      , calls := [.listProjects]
      , trace := [("Loading projects...", ""), (msg, "success")] }

/-- `AtlasProjectsApp.action_authenticate`: status "Authenticating...",
then `fetch_projects`.  The screen stack is untouched. -/
def action_authenticate (sys : Sys) (net : HttpResult) : ActOut :=
  let f := fetch_projects (sys.app.update_status "Authenticating..." "") net
  { sys := { sys with app := f.app }
  , raised := none
  , calls := f.calls
  , trace := ("Authenticating...", "") :: f.trace }

/-- Models `DataTable.get_row_at(index)`: the row tuple for a valid index,
otherwise the `RowDoesNotExist` exception the widget raises. -/
def getRowAt (rows : List Row) (i : Int) : Except PyExn Row :=
  if h : 0 ≤ i ∧ i.toNat < rows.length then .ok (rows.get ⟨i.toNat, h.2⟩)
  else .error .rowDoesNotExist

/-- The filter of `except (IndexError, StopIteration)` in `action_delete`:
only those two classes are caught there. -/
def isIndexOrStop : PyExn → Bool
  | .indexError => true
  | _ => false

/-- `AtlasProjectsApp.action_delete`: with no selection (cursor `None` or
negative) only a prompt status (default severity) is set; otherwise the
`try` block reads the selected row, awaits `delete_one_project` and — on
success — sets a success status and re-runs `fetch_projects`; its `except`
clause catches only `IndexError` and `StopIteration`, so any other
exception (in particular the client's `Exception("API request failed:
...")`) escapes the action boundary. -/
def action_delete (sys : Sys) (cursor : Option Int) (netDelete netReload : HttpResult) :
    ActOut :=
  match cursor with
  | none =>
    { sys := { sys with app := sys.app.update_status "Please select a project to delete" "" }
    , raised := none, calls := []
    , trace := [("Please select a project to delete", "")] }
  | some i =>
    if i < 0 then
      { sys := { sys with app := sys.app.update_status "Please select a project to delete" "" }
      , raised := none, calls := []
      , trace := [("Please select a project to delete", "")] }
    else
      let m1 := "Deleting project..." ++ toString i
      let st1 := sys.app.update_status m1 ""
      match getRowAt st1.table i with
      | .error e =>
        if isIndexOrStop e then
          { sys := { sys with app := st1.update_status "Could not find selected project" "error" }
          , raised := none, calls := []
          , trace := [(m1, ""), ("Could not find selected project", "error")] }
        else
          { sys := { sys with app := st1 }, raised := some e, calls := []
          , trace := [(m1, "")] }
      | .ok row =>
        let m2 := "Deleting project: " ++ pyStr row.name ++ " - " ++ pyStr row.pid
        let st2 := st1.update_status m2 ""
        match delete_one_project netDelete with
        | .error e =>
          if isIndexOrStop e then
            { sys := { sys with app := st2.update_status "Could not find selected project" "error" }
            , raised := none, calls := [.deleteProject row.pid]
            , trace := [(m1, ""), (m2, ""), ("Could not find selected project", "error")] }
          else
            { sys := { sys with app := st2 }, raised := some e
            , calls := [.deleteProject row.pid]
            , trace := [(m1, ""), (m2, "")] }
        | .ok _ =>
          let m3 := "Project deleted: " ++ pyStr row.name ++ " - " ++ pyStr row.pid
          let st3 := st2.update_status m3 "success"
          let f := fetch_projects st3 netReload
          { sys := { sys with app := f.app }
          , raised := none
          , calls := .deleteProject row.pid :: f.calls
          , trace := [(m1, ""), (m2, ""), (m3, "success")] ++ f.trace }

/-- `AtlasProjectsApp.action_cluster`: with no selection, a prompt status;
otherwise the selected row's id is looked up among `self.projects` (Python
`==`), a `ClusterViewScreen` for the found project is pushed (its mount
immediately starts the cluster fetch, so status "Loading clusters..." and
the `listClusters` request are recorded here; the response is applied
later by `cluster_response`); the broad `except (IndexError, Exception)`
turns any exception — including `RowDoesNotExist` from an out-of-bounds
index — into status "Error viewing clusters: ..." with severity "error". -/
def action_cluster (sys : Sys) (cursor : Option Int) : ActOut :=
  match cursor with
  | none =>
    { sys := { sys with
        app := sys.app.update_status "Please select a project to view clusters" "" }
    , raised := none, calls := []
    , trace := [("Please select a project to view clusters", "")] }
  | some i =>
    if i < 0 then
      { sys := { sys with
          app := sys.app.update_status "Please select a project to view clusters" "" }
      , raised := none, calls := []
      , trace := [("Please select a project to view clusters", "")] }
    else
      match getRowAt sys.app.table i with
      | .error e =>
        { sys := { sys with
            app := sys.app.update_status ("Error viewing clusters: " ++ e.str) "error" }
        , raised := none, calls := []
        , trace := [("Error viewing clusters: " ++ e.str, "error")] }
      | .ok row =>
        match sys.app.projects.find? (fun p => Json.beq p.id row.pid) with
        | some proj =>
          let m := "Opening clusters for: " ++ pyStr row.name
          let scr : ClusterScreenState :=
            { project := proj, clusters := [], ctable := [], cstatus := "Loading clusters..." }
          { sys := { app := sys.app.update_status m ""
                   , screens := sys.screens ++ [scr]
                   , stack := sys.screens.length :: sys.stack }
          , raised := none
          , calls := [.listClusters proj.id]
          , trace := [(m, ""), ("Loading clusters...", "")] }
        | none =>
          { sys := { sys with
              app := sys.app.update_status "Could not find project data" "error" }
          , raised := none, calls := []
          , trace := [("Could not find project data", "error")] }

/-- `ClusterViewScreen.action_back`: `self.app.pop_screen()` — the top
screen leaves the stack; the screen object itself is not destroyed. -/
def action_back (sys : Sys) : Sys :=
  { sys with stack := sys.stack.tail }

/-- Resumption of `ClusterViewScreen.fetch_clusters` when the awaited
`get_clusters` call resolves for screen `sid`.  On success the screen's
`clusters` attribute is assigned unconditionally; the subsequent widget
updates (`update_clusters_table`, `update_status`) go through `query_one`,
which raises `NoMatches` once the screen has been popped — that exception
is caught by the `except Exception` arm, whose own `update_status` then
raises `NoMatches` again, escaping the handler.  On failure the `except`
arm sets the screen's status when the screen is still mounted, and raises
`NoMatches` the same way when it is not. -/
def cluster_response (sys : Sys) (sid : Nat) (net : HttpResult) : ActOut :=
  match sys.screens.get? sid with
  | none => { sys := sys, raised := none, calls := [], trace := [] }
  | some scr =>
    let mounted := sys.stack.contains sid
    match get_clusters scr.project.id net with
    | .ok clusters =>
      let scr1 := { scr with clusters := clusters }
      if mounted then
        let n := clusters.length
        let msg := "Successfully loaded " ++ toString n ++ " cluster" ++
          (if n == 1 then "" else "s")
        let scr2 := { scr1 with ctable := clusters.map clusterRow, cstatus := msg }
        { sys := { sys with screens := sys.screens.set sid scr2 }
        , raised := none, calls := [], trace := [(msg, "")] }
      else
        { sys := { sys with screens := sys.screens.set sid scr1 }
        , raised := some .noMatches, calls := [], trace := [] }
    | .error e =>
      if mounted then
        let msg := "Error loading clusters: " ++ e.str
        { sys := { sys with screens := sys.screens.set sid { scr with cstatus := msg } }
        , raised := none, calls := [], trace := [(msg, "")] }
      else
        { sys := sys, raised := some .noMatches, calls := [], trace := [] }

/-! ## Helper lemmas -/

/-- A key that is not present reads back as the default. -/
theorem dictGet_of_not_hasKey (kvs : List (String × Json)) (k : String) (d : Json)
    (h : hasKey kvs k = false) : dictGet kvs k d = d := by
  unfold dictGet
  unfold hasKey at h
  cases hf : kvs.find? (fun kv => kv.1 == k) with
  | none => rfl
  | some kv => rw [hf] at h; simp at h

/-- Building `ProjectData` over a list of dict payloads never raises and
preserves order. -/
theorem traverseE_projectInit (objs : List (List (String × Json))) :
    traverseE projectDataInit (objs.map Json.obj) = .ok (objs.map projectOfDict) := by
  induction objs with
  | nil => rfl
  | cons d ds ih => simp [traverseE, projectDataInit, ih]

/-- On a provider-safe payload dict, `ClusterData.__init__` does not raise
and produces the total builder's record. -/
theorem clusterOfDict_safe (d : List (String × Json)) (h : psSafe d = true) :
    clusterOfDict d = .ok (clusterOfDictD d) := by
  unfold clusterOfDict clusterOfDictD
  unfold psSafe at h
  cases hps : dictGet d "providerSettings" (.obj []) with
  | obj pkvs =>
    by_cases ht : (Json.obj pkvs).truthy
    · simp [hps, ht]
    · simp [hps, ht]
  | null => simp [hps, Json.truthy]
  | bool b =>
    rw [hps] at h
    cases b with
    | false => simp [Json.truthy]
    | true => simp [Json.truthy, Json.isObj] at h
  | num n =>
    rw [hps] at h
    by_cases hn : n = 0
    · simp [Json.truthy, hn]
    · simp [Json.truthy, hn, Json.isObj] at h
  | str s =>
    rw [hps] at h
    by_cases hs : s.isEmpty
    · simp [Json.truthy, hs]
    · simp [Json.truthy, hs, Json.isObj] at h
  | arr xs =>
    rw [hps] at h
    by_cases hx : xs.isEmpty
    · simp [Json.truthy, hx]
    · simp [Json.truthy, hx, Json.isObj] at h

/-- Building `ClusterData` over provider-safe dict payloads never raises
and preserves order. -/
theorem traverseE_clusterInit (objs : List (List (String × Json)))
    (h : ∀ d ∈ objs, psSafe d = true) :
    traverseE clusterDataInit (objs.map Json.obj) = .ok (objs.map clusterOfDictD) := by
  induction objs with
  | nil => rfl
  | cons d ds ih =>
    have hd : psSafe d = true := h d (List.mem_cons_self d ds)
    have hds : ∀ x ∈ ds, psSafe x = true := fun x hx => h x (List.mem_cons_of_mem d hx)
    simp [traverseE, clusterDataInit, clusterOfDict_safe d hd, ih hds]

/-- The total cluster builder always produces some `mkCluster` record, so
its non-provider fields are uniform across the provider cases. -/
theorem clusterOfDictD_mk (d : List (String × Json)) :
    ∃ pn rn iz, clusterOfDictD d = mkCluster d pn rn iz := by
  unfold clusterOfDictD
  cases dictGet d "providerSettings" (.obj []) with
  | obj pkvs =>
    by_cases ht : (Json.obj pkvs).truthy
    · exact ⟨dictGet pkvs "providerName" (.str "Unknown"),
        dictGet pkvs "regionName" (.str "Unknown"),
        dictGet pkvs "instanceSizeName" (.str "Unknown"), by simp [ht]⟩
    · exact ⟨.str "Unknown", .str "Unknown", .str "Unknown", by simp [ht]⟩
  | null => exact ⟨_, _, _, rfl⟩
  | bool b => exact ⟨_, _, _, rfl⟩
  | num n => exact ⟨_, _, _, rfl⟩
  | str s => exact ⟨_, _, _, rfl⟩
  | arr xs => exact ⟨_, _, _, rfl⟩

/-- Successful 2xx parsing in `get_projects`, for a body whose `results`
value is an array of dicts. -/
theorem get_projects_results (s : Nat) (sd : String) (kvs : List (String × Json))
    (objs : List (List (String × Json))) (h2 : is2xx s = true)
    (hr : dictGet kvs "results" (Json.arr []) = Json.arr (objs.map Json.obj)) :
    get_projects (.response s sd (.json (.obj kvs))) = .ok (objs.map projectOfDict) := by
  simp [get_projects, h2, hr, pyIter, traverseE_projectInit]

/-- Successful 2xx parsing in `get_clusters`, for provider-safe payloads. -/
theorem get_clusters_results (pid : Json) (s : Nat) (sd : String)
    (kvs : List (String × Json)) (objs : List (List (String × Json)))
    (h2 : is2xx s = true)
    (hr : dictGet kvs "results" (Json.arr []) = Json.arr (objs.map Json.obj))
    (hsafe : ∀ d ∈ objs, psSafe d = true) :
    get_clusters pid (.response s sd (.json (.obj kvs))) = .ok (objs.map clusterOfDictD) := by
  simp [get_clusters, h2, hr, pyIter, traverseE_clusterInit objs hsafe]

/-- The two failure messages the client can construct are distinct for
every detail string. -/
theorem apiMsg_ne_jsonMsg (d : String) :
    ("API request failed: " ++ d) ≠ "Invalid JSON response from API" := by
  intro h
  have h2 := congrArg String.data h
  rw [String.data_append] at h2
  simp at h2

/-! ## Claim theorems -/

/-- C2, counterexample: the claim's three-case taxonomy does not exist in
the code.  A transport failure and a non-2xx response with the same
rendered detail produce the *same* failure value, `Exception("API request
failed: boom")` — so transport and request failures are not distinguishable
and no status code is carried as a value; moreover a 2xx response whose
valid-JSON body is an array (not an object) makes `data.get` raise an
`AttributeError` that matches neither `except` arm and escapes the client
boundary uncaught. -/
theorem c2_counterexample :
    get_projects (.transportError "boom") =
      .error (.exception "API request failed: boom") ∧
    get_projects (.response 500 "boom" (.json .null)) =
      .error (.exception "API request failed: boom") ∧
    get_projects (.response 200 "" (.json (.arr []))) = .error .attributeError :=
  ⟨rfl, rfl, rfl⟩

/-- C2, amended: each client operation converts every `httpx.HTTPError` —
transport failures and non-2xx statuses alike, collapsed into one case —
into `Exception("API request failed: <detail>")` with the status code
present only inside the detail text, and converts an invalid-JSON body into
`Exception("Invalid JSON response from API")`; these two message forms are
distinguishable from each other, giving two (not three) distinguishable
converted outcomes. -/
theorem c2_amended :
    (∀ (d : String) (pid : Json),
      get_projects (.transportError d) =
        .error (.exception ("API request failed: " ++ d)) ∧
      get_clusters pid (.transportError d) =
        .error (.exception ("API request failed: " ++ d)) ∧
      delete_one_project (.transportError d) =
        .error (.exception ("API request failed: " ++ d))) ∧
    (∀ (s : Nat) (sd : String) (b : Body) (pid : Json), is2xx s = false →
      get_projects (.response s sd b) =
        .error (.exception ("API request failed: " ++ sd)) ∧
      get_clusters pid (.response s sd b) =
        .error (.exception ("API request failed: " ++ sd)) ∧
      delete_one_project (.response s sd b) =
        .error (.exception ("API request failed: " ++ sd))) ∧
    (∀ (s : Nat) (sd : String) (pid : Json), is2xx s = true →
      get_projects (.response s sd .malformed) =
        .error (.exception "Invalid JSON response from API") ∧
      get_clusters pid (.response s sd .malformed) =
        .error (.exception "Invalid JSON response from API")) ∧
    (∀ d : String, ("API request failed: " ++ d) ≠ "Invalid JSON response from API") := by
  refine ⟨fun d pid => ⟨rfl, rfl, rfl⟩, fun s sd b pid h => ?_, fun s sd pid h => ?_,
    apiMsg_ne_jsonMsg⟩
  · exact ⟨by simp [get_projects, h], by simp [get_clusters, h], by simp [delete_one_project, h]⟩
  · exact ⟨by simp [get_projects, h], by simp [get_clusters, h]⟩

/-- Witness for the amended C2 at concrete inputs: a 503 response and a
transport failure both yield the generic "API request failed" exception. -/
theorem c2_amended_witness :
    is2xx 503 = false ∧
    get_projects (.response 503 "Service Unavailable" (.json .null)) =
      .error (.exception "API request failed: Service Unavailable") ∧
    get_clusters (Json.str "p1") (.response 503 "Service Unavailable" (.json .null)) =
      .error (.exception "API request failed: Service Unavailable") ∧
    delete_one_project (.response 503 "Service Unavailable" (.json .null)) =
      .error (.exception "API request failed: Service Unavailable") :=
  ⟨by decide,
    c2_amended.2.1 503 "Service Unavailable" (.json .null) (Json.str "p1") (by decide)⟩

/-- C3: for every valid JSON payload whose body is an object carrying a
`results` array of record dicts, `listProjects`/`listClusters` produce one
record per element in array order (for clusters, provided each element's
`providerSettings` is absent, falsy or a dict — see C10 for the raising
case), and each optional field defaults as specified: `clusterCount` 0,
`backupEnabled` false, absent strings empty with display fallbacks
"Unnamed Project" / "Unnamed Cluster" / "Unknown" for state and version,
and provider fields "Unknown" when `providerSettings` is absent. -/
theorem c3_theorem :
    (∀ (s : Nat) (sd : String) (kvs : List (String × Json))
        (objs : List (List (String × Json))), is2xx s = true →
      dictGet kvs "results" (Json.arr []) = Json.arr (objs.map Json.obj) →
      get_projects (.response s sd (.json (.obj kvs))) = .ok (objs.map projectOfDict)) ∧
    (∀ (pid : Json) (s : Nat) (sd : String) (kvs : List (String × Json))
        (objs : List (List (String × Json))), is2xx s = true →
      dictGet kvs "results" (Json.arr []) = Json.arr (objs.map Json.obj) →
      (∀ d ∈ objs, psSafe d = true) →
      get_clusters pid (.response s sd (.json (.obj kvs))) = .ok (objs.map clusterOfDictD)) ∧
    (∀ d, hasKey d "clusterCount" = false → (projectOfDict d).cluster_count = Json.num 0) ∧
    (∀ d, hasKey d "name" = false → (projectOfDict d).name = Json.str "" ∧
      orJ (projectOfDict d).name (Json.str "Unnamed Project") = Json.str "Unnamed Project") ∧
    (∀ d, hasKey d "backupEnabled" = false →
      (clusterOfDictD d).backup_enabled = Json.bool false) ∧
    (∀ d, hasKey d "stateName" = false → (clusterOfDictD d).state_name = Json.str "" ∧
      orJ (clusterOfDictD d).state_name (Json.str "Unknown") = Json.str "Unknown") ∧
    (∀ d, hasKey d "mongoDBVersion" = false →
      (clusterOfDictD d).mongo_db_version = Json.str "" ∧
      orJ (clusterOfDictD d).mongo_db_version (Json.str "Unknown") = Json.str "Unknown") ∧
    (∀ d, hasKey d "name" = false → (clusterOfDictD d).name = Json.str "" ∧
      orJ (clusterOfDictD d).name (Json.str "Unnamed Cluster") = Json.str "Unnamed Cluster") ∧
    (∀ d, hasKey d "providerSettings" = false →
      (clusterOfDictD d).provider_name = Json.str "Unknown" ∧
      (clusterOfDictD d).region_name = Json.str "Unknown" ∧
      (clusterOfDictD d).instance_size_name = Json.str "Unknown") := by
  refine ⟨get_projects_results, get_clusters_results, ?_, ?_, ?_, ?_, ?_, ?_, ?_⟩
  · intro d h
    simp [projectOfDict, dictGet_of_not_hasKey d "clusterCount" _ h]
  · intro d h
    have h1 : (projectOfDict d).name = Json.str "" := by
      simp [projectOfDict, dictGet_of_not_hasKey d "name" _ h]
    exact ⟨h1, by rw [h1]; rfl⟩
  · intro d h
    obtain ⟨pn, rn, iz, hm⟩ := clusterOfDictD_mk d
    rw [hm]
    simp [mkCluster, dictGet_of_not_hasKey d "backupEnabled" _ h]
  · intro d h
    obtain ⟨pn, rn, iz, hm⟩ := clusterOfDictD_mk d
    have h1 : (clusterOfDictD d).state_name = Json.str "" := by
      rw [hm]; simp [mkCluster, dictGet_of_not_hasKey d "stateName" _ h]
    exact ⟨h1, by rw [h1]; rfl⟩
  · intro d h
    obtain ⟨pn, rn, iz, hm⟩ := clusterOfDictD_mk d
    have h1 : (clusterOfDictD d).mongo_db_version = Json.str "" := by
      rw [hm]; simp [mkCluster, dictGet_of_not_hasKey d "mongoDBVersion" _ h]
    exact ⟨h1, by rw [h1]; rfl⟩
  · intro d h
    obtain ⟨pn, rn, iz, hm⟩ := clusterOfDictD_mk d
    have h1 : (clusterOfDictD d).name = Json.str "" := by
      rw [hm]; simp [mkCluster, dictGet_of_not_hasKey d "name" _ h]
    exact ⟨h1, by rw [h1]; rfl⟩
  · intro d h
    have hd := dictGet_of_not_hasKey d "providerSettings" (Json.obj []) h
    unfold clusterOfDictD
    rw [hd]
    simp [Json.truthy, mkCluster]

/-- Witness for C3 at a concrete payload: a one-element `results` array
whose dict omits every optional field. -/
theorem c3_witness :
    is2xx 200 = true ∧
    get_projects (.response 200 ""
        (.json (Json.obj [("results", Json.arr [Json.obj [("id", Json.str "p1")]])]))) =
      .ok ([[("id", Json.str "p1")]].map projectOfDict) ∧
    get_clusters (Json.str "p1") (.response 200 ""
        (.json (Json.obj [("results", Json.arr [Json.obj [("id", Json.str "c1")]])]))) =
      .ok ([[("id", Json.str "c1")]].map clusterOfDictD) ∧
    (clusterOfDictD [("id", Json.str "c1")]).provider_name = Json.str "Unknown" :=
  ⟨by decide,
    c3_theorem.1 200 "" [("results", Json.arr [Json.obj [("id", Json.str "p1")]])]
      [[("id", Json.str "p1")]] (by decide) rfl,
    c3_theorem.2.1 (Json.str "p1") 200 ""
      [("results", Json.arr [Json.obj [("id", Json.str "c1")]])]
      [[("id", Json.str "c1")]] (by decide) rfl
      (by intro d hd; rw [List.mem_singleton] at hd; subst hd; rfl),
    (c3_theorem.2.2.2.2.2.2.2.2 [("id", Json.str "c1")] rfl).1⟩

/-- C4: a valid JSON object payload without a `results` key yields the
empty sequence from both list operations and does not fail. -/
theorem c4_theorem (s : Nat) (sd : String) (kvs : List (String × Json)) (pid : Json)
    (h2 : is2xx s = true) (hk : hasKey kvs "results" = false) :
    get_projects (.response s sd (.json (.obj kvs))) = .ok [] ∧
    get_clusters pid (.response s sd (.json (.obj kvs))) = .ok [] := by
  have hr : dictGet kvs "results" (Json.arr []) = Json.arr ([].map Json.obj) :=
    dictGet_of_not_hasKey kvs "results" (Json.arr []) hk
  exact ⟨get_projects_results s sd kvs [] h2 hr,
    get_clusters_results pid s sd kvs [] h2 hr (by intro d hd; cases hd)⟩

/-- Witness for C4 at a concrete payload with no `results` key. -/
theorem c4_witness :
    is2xx 200 = true ∧ hasKey [("totalCount", Json.num 0)] "results" = false ∧
    get_projects (.response 200 "" (.json (Json.obj [("totalCount", Json.num 0)]))) = .ok [] ∧
    get_clusters (Json.str "p1")
      (.response 200 "" (.json (Json.obj [("totalCount", Json.num 0)]))) = .ok [] :=
  ⟨by decide, by decide,
    (c4_theorem 200 "" [("totalCount", Json.num 0)] (Json.str "p1") (by decide) (by decide)).1,
    (c4_theorem 200 "" [("totalCount", Json.num 0)] (Json.str "p1") (by decide) (by decide)).2⟩

/-- C10, counterexample: record construction *can* raise — a payload dict
whose `providerSettings` is a truthy non-dict (here the string "x") makes
`ClusterData.__init__` raise `AttributeError` at
`provider_settings.get('providerName', 'Unknown')`. -/
theorem c10_counterexample :
    clusterDataInit (Json.obj [("providerSettings", Json.str "x")]) =
      .error .attributeError := rfl

/-- C10, amended: when `providerSettings` is present as a dict (or absent,
defaulting to the empty dict), each of the three provider fields defaults
to "Unknown" individually per missing key, and construction does not raise
for any payload whose `providerSettings` is absent, falsy or a dict; a
truthy non-dict `providerSettings` raises `AttributeError`
(`c10_counterexample`). -/
theorem c10_theorem :
    (∀ d, psSafe d = true → clusterOfDict d = .ok (clusterOfDictD d)) ∧
    (∀ d pkvs, dictGet d "providerSettings" (Json.obj []) = Json.obj pkvs →
      (hasKey pkvs "providerName" = false →
        (clusterOfDictD d).provider_name = Json.str "Unknown") ∧
      (hasKey pkvs "regionName" = false →
        (clusterOfDictD d).region_name = Json.str "Unknown") ∧
      (hasKey pkvs "instanceSizeName" = false →
        (clusterOfDictD d).instance_size_name = Json.str "Unknown")) := by
  refine ⟨clusterOfDict_safe, fun d pkvs hps => ?_⟩
  unfold clusterOfDictD
  rw [hps]
  by_cases ht : (Json.obj pkvs).truthy
  · simp only [ht, if_true]
    exact ⟨fun h => by simp [mkCluster, dictGet_of_not_hasKey pkvs "providerName" _ h],
      fun h => by simp [mkCluster, dictGet_of_not_hasKey pkvs "regionName" _ h],
      fun h => by simp [mkCluster, dictGet_of_not_hasKey pkvs "instanceSizeName" _ h]⟩
  · simp only [ht, if_false]
    exact ⟨fun _ => rfl, fun _ => rfl, fun _ => rfl⟩

/-- Witness for the amended C10: `providerSettings` present as a dict with
only `regionName` — the two missing keys default to "Unknown" individually
and construction succeeds. -/
theorem c10_witness :
    psSafe [("providerSettings", Json.obj [("regionName", Json.str "EU_WEST_1")])] = true ∧
    clusterOfDict [("providerSettings", Json.obj [("regionName", Json.str "EU_WEST_1")])] =
      .ok (clusterOfDictD [("providerSettings", Json.obj [("regionName", Json.str "EU_WEST_1")])]) ∧
    (clusterOfDictD [("providerSettings", Json.obj [("regionName", Json.str "EU_WEST_1")])]).provider_name
      = Json.str "Unknown" ∧
    (clusterOfDictD [("providerSettings", Json.obj [("regionName", Json.str "EU_WEST_1")])]).instance_size_name
      = Json.str "Unknown" :=
  ⟨rfl,
    c10_theorem.1 [("providerSettings", Json.obj [("regionName", Json.str "EU_WEST_1")])] rfl,
    (c10_theorem.2 [("providerSettings", Json.obj [("regionName", Json.str "EU_WEST_1")])]
      [("regionName", Json.str "EU_WEST_1")] rfl).1 rfl,
    (c10_theorem.2 [("providerSettings", Json.obj [("regionName", Json.str "EU_WEST_1")])]
      [("regionName", Json.str "EU_WEST_1")] rfl).2.2 rfl⟩

/-! ## State-machine lemmas and fixtures -/

/-- `fetch_projects` always issues exactly one `listProjects` request. -/
theorem fetch_projects_calls (st : AppState) (net : HttpResult) :
    (fetch_projects st net).calls = [.listProjects] := by
  unfold fetch_projects
  cases get_projects net with
  | error e => rfl
  | ok ps =>
    cases hb : buildRows ps with
    | mk rows e? => cases e? <;> simp [hb]

/-- The status trace of `fetch_projects` is the loading message followed by
one outcome message. -/
theorem fetch_projects_trace (st : AppState) (net : HttpResult) :
    ∃ x, (fetch_projects st net).trace = [("Loading projects...", ""), x] := by
  unfold fetch_projects
  cases get_projects net with
  | error e => exact ⟨_, rfl⟩
  | ok ps =>
    cases hb : buildRows ps with
    | mk rows e? => cases e? <;> simp [hb]

/-- Every failure of `delete_one_project` is a converted `Exception`, never
an `IndexError` or `StopIteration` — so `action_delete`'s `except` filter
never catches it. -/
theorem delete_err_form (net : HttpResult) (e : PyExn)
    (h : delete_one_project net = .error e) : isIndexOrStop e = false := by
  cases net with
  | transportError d =>
    simp [delete_one_project] at h
    rw [← h]; rfl
  | response s sd b =>
    by_cases h2 : is2xx s = true
    · simp [delete_one_project, h2] at h
    · simp [delete_one_project, Bool.of_not_eq_true h2] at h
      rw [← h]; rfl

/-- A concrete project record, as parsed from Scenario A's payload. -/
def demoProject : ProjectData :=
  projectOfDict [("id", Json.str "p1"), ("name", Json.str "Demo"),
    ("created", Json.str "2024-01-05T10:00:00Z")]

/-- The table row rendered for `demoProject`. -/
def demoRow : Row :=
  { name := Json.str "Demo", pid := Json.str "p1", created := Json.str "05-Jan-2024 10:00" }

/-- App state after successfully loading the one demo project. -/
def demoSys : Sys :=
  { app := { projects := [demoProject], table := [demoRow]
           , status := "Successfully loaded 1 project", severity := "success" }
  , screens := [], stack := [] }

/-- Initial app state: nothing loaded yet. -/
def readySys : Sys :=
  { app := { projects := [], table := [], status := "Ready", severity := "" }
  , screens := [], stack := [] }

/-! ## Remaining claim theorems -/

/-- C5: when `listProjects` fails during the authenticate flow,
`fetch_projects` catches the exception, sets status `Error: ...` with
severity "error", and leaves both `projects` and the table at their
previous values. -/
theorem c5_theorem (st : AppState) (net : HttpResult) (e : PyExn)
    (h : get_projects net = .error e) :
    (fetch_projects st net).app.projects = st.projects ∧
    (fetch_projects st net).app.table = st.table ∧
    (fetch_projects st net).app.severity = "error" ∧
    (fetch_projects st net).app.status = "Error: " ++ e.str := by
  simp [fetch_projects, h, AppState.update_status]

/-- Witness for C5: a network timeout on first load leaves `projects`
empty and sets an error-severity status. -/
theorem c5_witness :
    get_projects (.transportError "timed out") =
      .error (.exception "API request failed: timed out") ∧
    (fetch_projects readySys.app (.transportError "timed out")).app.projects = [] ∧
    (fetch_projects readySys.app (.transportError "timed out")).app.severity = "error" :=
  ⟨rfl,
    (c5_theorem readySys.app (.transportError "timed out")
      (.exception "API request failed: timed out") rfl).1,
    (c5_theorem readySys.app (.transportError "timed out")
      (.exception "API request failed: timed out") rfl).2.2.1⟩

/-- The Scenario A response: one project named "Demo" created at
`2024-01-05T10:00:00Z`. -/
def demoNet : HttpResult :=
  .response 200 "" (.json (Json.obj [("results", Json.arr
    [Json.obj [("id", Json.str "p1"), ("name", Json.str "Demo"),
      ("created", Json.str "2024-01-05T10:00:00Z")]])]))

/-- C9: Scenario A — `listProjects` returns one project named "Demo" with
`created = "2024-01-05T10:00:00Z"`; the rendered projects-table row shows
"Demo" and the formatted date "05-Jan-2024 10:00". -/
theorem c9_theorem :
    (fetch_projects readySys.app demoNet).app.table = [demoRow] ∧
    (fetch_projects readySys.app demoNet).app.status = "Successfully loaded 1 project" ∧
    demoRow.name = Json.str "Demo" ∧
    demoRow.created = Json.str "05-Jan-2024 10:00" :=
  ⟨rfl, by decide, rfl, rfl⟩

/-- C1, counterexample: a transport failure of `deleteProject` during the
delete action is *not* caught at the action boundary — `action_delete`
catches only `IndexError`/`StopIteration`, so the client's
`Exception("API request failed: timed out")` escapes, and the status line
is left at the neutral in-progress message, not an error-severity one. -/
theorem c1_counterexample :
    (action_delete demoSys (some 0) (.transportError "timed out") demoNet).raised =
      some (.exception "API request failed: timed out") ∧
    (action_delete demoSys (some 0) (.transportError "timed out") demoNet).sys.app.severity
      = "" ∧
    (action_delete demoSys (some 0) (.transportError "timed out") demoNet).sys.app.status
      = "Deleting project: Demo - p1" :=
  ⟨by decide, by decide, by decide⟩

/-- C1, amended: for `authenticate` every failure is caught (the action
never raises), converted to an error-severity status, and `projects`, the
screen stack and the screens are unchanged; for a mounted cluster screen a
`listClusters` failure is caught and converted to a status message (that
screen's status line has no severity mechanism), leaving app state, stack
and the screen's `clusters` unchanged; but for `delete`, an API failure of
`deleteProject` escapes the action boundary uncaught with the status still
at the neutral in-progress message — session state (`projects`, screens,
stack) is nevertheless left unchanged. -/
theorem c1_amended :
    (∀ (sys : Sys) (net : HttpResult),
      (action_authenticate sys net).raised = none ∧
      (action_authenticate sys net).sys.stack = sys.stack ∧
      (action_authenticate sys net).sys.screens = sys.screens ∧
      (∀ e, get_projects net = .error e →
        (action_authenticate sys net).sys.app.severity = "error" ∧
        (action_authenticate sys net).sys.app.projects = sys.app.projects)) ∧
    (∀ (sys : Sys) (sid : Nat) (scr : ClusterScreenState) (net : HttpResult) (e : PyExn),
      sys.screens.get? sid = some scr → sys.stack.contains sid = true →
      get_clusters scr.project.id net = .error e →
      (cluster_response sys sid net).raised = none ∧
      (cluster_response sys sid net).sys.app = sys.app ∧
      (cluster_response sys sid net).sys.stack = sys.stack ∧
      (cluster_response sys sid net).sys.screens =
        sys.screens.set sid { scr with cstatus := "Error loading clusters: " ++ e.str }) ∧
    (∀ (sys : Sys) (i : Int) (row : Row) (netD netR : HttpResult) (e : PyExn),
      ¬ i < 0 → getRowAt sys.app.table i = .ok row →
      delete_one_project netD = .error e →
      (action_delete sys (some i) netD netR).raised = some e ∧
      (action_delete sys (some i) netD netR).sys.app.projects = sys.app.projects ∧
      (action_delete sys (some i) netD netR).sys.app.severity = "" ∧
      (action_delete sys (some i) netD netR).sys.stack = sys.stack ∧
      (action_delete sys (some i) netD netR).sys.screens = sys.screens) := by
  refine ⟨fun sys net => ⟨rfl, rfl, rfl, fun e h => ?_⟩,
    fun sys sid scr net e hscr hct herr => ?_, fun sys i row netD netR e hi hrow herr => ?_⟩
  · constructor <;>
      simp [action_authenticate, fetch_projects, h, AppState.update_status]
  · have hmem : sid ∈ sys.stack := by simpa using hct
    unfold cluster_response
    simp only [hscr, herr]
    simp [hmem]
  · have hf : isIndexOrStop e = false := delete_err_form netD e herr
    unfold action_delete
    simp only [if_neg hi, AppState.update_status, hrow, herr, hf]
    simp

/-- Witness for the amended C1: concrete delete with a transport failure —
the exception escapes, `projects` and the stack survive. -/
theorem c1_amended_witness :
    ¬ (0 : Int) < 0 ∧
    getRowAt demoSys.app.table 0 = .ok demoRow ∧
    delete_one_project (.transportError "x") =
      .error (.exception "API request failed: x") ∧
    (action_delete demoSys (some 0) (.transportError "x") demoNet).raised =
      some (.exception "API request failed: x") ∧
    (action_delete demoSys (some 0) (.transportError "x") demoNet).sys.app.projects =
      demoSys.app.projects :=
  ⟨by decide, rfl, rfl,
    (c1_amended.2.2 demoSys 0 demoRow (.transportError "x") demoNet
      (.exception "API request failed: x") (by decide) rfl rfl).1,
    (c1_amended.2.2 demoSys 0 demoRow (.transportError "x") demoNet
      (.exception "API request failed: x") (by decide) rfl rfl).2.1⟩

/-- C8: on a successful `deleteProject` for the selected row the action
issues the delete followed by exactly one `listProjects` reload, with the
success status set before the reload statuses; on a failed delete the
loaded `projects` are not modified and no reload is issued. -/
theorem c8_theorem (sys : Sys) (i : Int) (row : Row) (netD netR : HttpResult)
    (hi : ¬ i < 0) (hrow : getRowAt sys.app.table i = .ok row) :
    (delete_one_project netD = .ok () →
      (action_delete sys (some i) netD netR).calls =
        [.deleteProject row.pid, .listProjects] ∧
      ((action_delete sys (some i) netD netR).calls.countP
        (fun c => isListProjects c)) = 1 ∧
      ∃ last, (action_delete sys (some i) netD netR).trace =
        [("Deleting project..." ++ toString i, ""),
         ("Deleting project: " ++ pyStr row.name ++ " - " ++ pyStr row.pid, ""),
         ("Project deleted: " ++ pyStr row.name ++ " - " ++ pyStr row.pid, "success"),
         ("Loading projects...", ""), last]) ∧
    (∀ e, delete_one_project netD = .error e →
      (action_delete sys (some i) netD netR).sys.app.projects = sys.app.projects ∧
      ((action_delete sys (some i) netD netR).calls.countP
        (fun c => isListProjects c)) = 0) := by
  constructor
  · intro hok
    refine ⟨?_, ?_, ?_⟩
    · simp [action_delete, if_neg hi, AppState.update_status, hrow, hok,
        fetch_projects_calls]
    · simp [action_delete, if_neg hi, AppState.update_status, hrow, hok,
        fetch_projects_calls, List.countP_cons, List.countP_nil, isListProjects]
    · simp only [action_delete, if_neg hi, AppState.update_status, hrow, hok]
      obtain ⟨x, hx⟩ := fetch_projects_trace _ netR
      rw [hx]
      exact ⟨x, rfl⟩
  · intro e herr
    have hf : isIndexOrStop e = false := delete_err_form netD e herr
    constructor
    · simp [action_delete, if_neg hi, AppState.update_status, hrow, herr, hf]
    · simp [action_delete, if_neg hi, AppState.update_status, hrow, herr, hf,
        List.countP_cons, List.countP_nil, isListProjects]

/-- Witness for C8: concrete successful delete (204) followed by the
Scenario A reload, and a concrete failed delete (500). -/
theorem c8_witness :
    ¬ (0 : Int) < 0 ∧
    getRowAt demoSys.app.table 0 = .ok demoRow ∧
    delete_one_project (.response 204 "" (.json .null)) = .ok () ∧
    (action_delete demoSys (some 0) (.response 204 "" (.json .null)) demoNet).calls =
      [.deleteProject demoRow.pid, .listProjects] ∧
    (action_delete demoSys (some 0) (.transportError "down") demoNet).sys.app.projects =
      demoSys.app.projects :=
  ⟨by decide, rfl, rfl,
    ((c8_theorem demoSys 0 demoRow (.response 204 "" (.json .null)) demoNet
      (by decide) rfl).1 rfl).1,
    ((c8_theorem demoSys 0 demoRow (.transportError "down") demoNet
      (by decide) rfl).2 (.exception "API request failed: down") rfl).1⟩

/-- C6, counterexample: with an out-of-bounds selected index (cursor 0 on
an empty table) the status becomes "Error viewing clusters: ..." with
severity "error" — it does not ask the user to select a project (no screen
transition occurs, as the claim says). -/
theorem c6_counterexample :
    (action_cluster readySys (some 0)).sys.app.status =
      "Error viewing clusters: RowDoesNotExist" ∧
    (action_cluster readySys (some 0)).sys.app.status ≠
      "Please select a project to view clusters" ∧
    (action_cluster readySys (some 0)).sys.app.severity = "error" ∧
    (action_cluster readySys (some 0)).sys.stack = [] :=
  ⟨by decide, by decide, by decide, rfl⟩

/-- C6, amended: with no row selected (cursor `None` or negative) the
status asks the user to select a project and no transition occurs; with an
out-of-bounds non-negative index the caught `RowDoesNotExist` yields an
error status ("Error viewing clusters: ..."), still with no transition;
from a valid selection whose row id belongs to a loaded project, a
`ClusterViewScreen` is pushed whose stored project has an id equal to the
selected row's id, and `listClusters` is invoked for it. -/
theorem c6_theorem :
    (∀ sys : Sys, (action_cluster sys none).sys.stack = sys.stack ∧
      (action_cluster sys none).sys.app.status =
        "Please select a project to view clusters") ∧
    (∀ (sys : Sys) (i : Int), i < 0 →
      (action_cluster sys (some i)).sys.stack = sys.stack ∧
      (action_cluster sys (some i)).sys.app.status =
        "Please select a project to view clusters") ∧
    (∀ (sys : Sys) (i : Int), ¬ i < 0 →
      getRowAt sys.app.table i = .error .rowDoesNotExist →
      (action_cluster sys (some i)).sys.stack = sys.stack ∧
      (action_cluster sys (some i)).sys.screens = sys.screens ∧
      (action_cluster sys (some i)).sys.app.status =
        "Error viewing clusters: RowDoesNotExist" ∧
      (action_cluster sys (some i)).sys.app.severity = "error") ∧
    (∀ (sys : Sys) (i : Int) (row : Row) (proj : ProjectData), ¬ i < 0 →
      getRowAt sys.app.table i = .ok row →
      sys.app.projects.find? (fun p => Json.beq p.id row.pid) = some proj →
      (action_cluster sys (some i)).sys.stack = sys.screens.length :: sys.stack ∧
      (action_cluster sys (some i)).sys.screens = sys.screens ++
        [{ project := proj, clusters := [], ctable := []
         , cstatus := "Loading clusters..." }] ∧
      Json.beq proj.id row.pid = true ∧
      (action_cluster sys (some i)).calls = [.listClusters proj.id]) := by
  refine ⟨fun sys => ⟨rfl, rfl⟩, fun sys i hi => ?_, fun sys i hi hrow => ?_,
    fun sys i row proj hi hrow hfind => ?_⟩
  · constructor <;> simp [action_cluster, if_pos hi, AppState.update_status]
  · refine ⟨?_, ?_, ?_, ?_⟩ <;>
      simp [action_cluster, if_neg hi, hrow, AppState.update_status, PyExn.str]
  · have hbeq : (fun p => Json.beq p.id row.pid) proj = true :=
      @List.find?_some ProjectData (fun p => Json.beq p.id row.pid) proj
        sys.app.projects hfind
    refine ⟨?_, ?_, hbeq, ?_⟩ <;>
      simp [action_cluster, if_neg hi, hrow, hfind]

/-- Witness for the amended C6: selecting row 0 of the demo state pushes a
cluster screen for the project with the row's id. -/
theorem c6_witness :
    getRowAt demoSys.app.table 0 = .ok demoRow ∧
    demoSys.app.projects.find? (fun p => Json.beq p.id demoRow.pid) = some demoProject ∧
    (action_cluster demoSys (some 0)).sys.stack = [0] ∧
    Json.beq demoProject.id demoRow.pid = true :=
  ⟨rfl, rfl,
    (c6_theorem.2.2.2 demoSys 0 demoRow demoProject (by decide) rfl rfl).1,
    (c6_theorem.2.2.2 demoSys 0 demoRow demoProject (by decide) rfl rfl).2.2.1⟩

/-- A cluster-list response carrying one cluster named "c1". -/
def clusterNet : HttpResult :=
  .response 200 "" (.json (Json.obj [("results", Json.arr
    [Json.obj [("name", Json.str "c1")]])]))

/-- C7, counterexample: after `openClusters` and then `back`, the late
`listClusters` response is *not* dropped — there is no relevance check:
the handler unconditionally assigns the fetched clusters to the popped
screen object (its stored cluster list goes from empty to length 1), and
the subsequent widget update raises `NoMatches`, which escapes the
handler. -/
theorem c7_counterexample :
    (action_back (action_cluster demoSys (some 0)).sys).stack = [] ∧
    ((cluster_response (action_back (action_cluster demoSys (some 0)).sys) 0
        clusterNet).sys.screens.get? 0).map (fun s => s.clusters.length) = some 1 ∧
    (cluster_response (action_back (action_cluster demoSys (some 0)).sys) 0
        clusterNet).raised = some .noMatches :=
  ⟨rfl, by decide, by decide⟩

/-- C7, amended: a `listClusters` response arriving for a screen that is no
longer on the stack cannot mutate `projects`, cannot change the screen
stack (so it does not re-enter ClusterList), issues no further API calls,
and leaves every other screen's state untouched — its writes are confined
to the popped screen object itself, which it does mutate (see the
counterexample), since the code performs no relevance check. -/
theorem c7_theorem (sys : Sys) (sid : Nat) (net : HttpResult)
    (h : sys.stack.contains sid = false) :
    (cluster_response sys sid net).sys.app = sys.app ∧
    (cluster_response sys sid net).sys.stack = sys.stack ∧
    (cluster_response sys sid net).calls = [] ∧
    (∀ j, j ≠ sid → (cluster_response sys sid net).sys.screens[j]? =
      sys.screens[j]?) := by
  unfold cluster_response
  cases hscr : sys.screens.get? sid with
  | none => exact ⟨rfl, rfl, rfl, fun j _ => rfl⟩
  | some scr =>
    have hmem : sid ∉ sys.stack := by simpa using h
    cases hg : get_clusters scr.project.id net with
    | ok clusters =>
      refine ⟨by simp [hg, hmem], by simp [hg, hmem], by simp [hg, hmem], fun j hj => ?_⟩
      simp [hg, hmem]
      exact List.getElem?_set_ne (fun hh => hj hh.symm)
    | error e =>
      exact ⟨by simp [hg, hmem], by simp [hg, hmem], by simp [hg, hmem],
        fun j _ => by simp [hg, hmem]⟩

/-- Witness for the amended C7: the stale response in the concrete
back-then-resolve scenario leaves the app state and (empty) stack alone. -/
theorem c7_witness :
    (action_back (action_cluster demoSys (some 0)).sys).stack.contains 0 = false ∧
    (cluster_response (action_back (action_cluster demoSys (some 0)).sys) 0
      (.transportError "late")).sys.app =
      (action_back (action_cluster demoSys (some 0)).sys).app ∧
    (cluster_response (action_back (action_cluster demoSys (some 0)).sys) 0
      (.transportError "late")).sys.stack =
      (action_back (action_cluster demoSys (some 0)).sys).stack :=
  ⟨rfl,
    (c7_theorem (action_back (action_cluster demoSys (some 0)).sys) 0
      (.transportError "late") rfl).1,
    (c7_theorem (action_back (action_cluster demoSys (some 0)).sys) 0
      (.transportError "late") rfl).2.1⟩

end Atlas
